import Mathlib

/-!
Shallow embedding of `src/vault/src/crypto_box.rs`: the `BoxProvider`
capability, the `Key` container with its drop-hook lifecycle, and the
generic `Encrypt`/`Decrypt` operations.  Byte sequences are modelled as
`List Nat`; fallible operations return `Except Error`.
-/

namespace CryptoBox

/-- Byte sequences (`Vec<u8>` / `&[u8]`). -/
abbrev Bytes := List Nat

/-- Modelled from the spec: the crate-level error enum `crate::Error` is not
under `src/`; `crypto_box.rs` only references the variants
`crate::Error::InterfaceError` (wrong key length in `load`, the spec's
ValidationError) and `crate::Error::DatabaseError` (the spec's
MalformedPayloadError, raised with message "Invalid Entry").  Per spec section 7
the third error kind is ProviderError: any failure inside seal/open/random. -/
inductive Error where
  | InterfaceError : Error
  | DatabaseError : String → Error
  | ProviderError : String → Error
deriving DecidableEq

/-- `crate::Result<A>`. -/
abbrev CResult (α : Type) := Except Error α

/-- The drop-hook shape `fn(&mut [u8])`: mutates the buffer in place,
modelled as a function from the buffer contents to the new contents. -/
abbrev Hook := Bytes → Bytes

/-- `Key<T>`: the raw key bytes, the optional drop hook, and the
`PhantomData<T>` marker (a zero-sized field, modelled as `Unit`). -/
structure Key where
  key : Bytes
  drop_fn : Option Hook
  _box_provider : Unit

/-- The `BoxProvider` trait: one value per concrete cipher.  `random_buf`
fills a `&mut [u8]` in place; a Rust slice cannot be resized, which the
proof field `random_buf_len` records. -/
structure BoxProvider where
  box_key_len : Nat
  box_overhead : Nat
  box_seal : Key → Bytes → Bytes → CResult Bytes
  box_open : Key → Bytes → Bytes → CResult Bytes
  random_buf : Bytes → CResult Bytes
  random_buf_len : ∀ buf out, random_buf buf = Except.ok out → out.length = buf.length

/-- `BoxProvider::random_vec` (default method): allocate `vec![0; len]`,
fill it via `random_buf`, return it. -/
def BoxProvider.random_vec (P : BoxProvider) (len : Nat) : CResult Bytes :=
  match P.random_buf (List.replicate len 0) with
  | .ok buf => .ok buf
  | .error e => .error e

/-- `Key::random`: a key of `random_vec(box_key_len())` bytes, no hook. -/
def Key.random (P : BoxProvider) : CResult Key :=
  match P.random_vec P.box_key_len with
  | .ok k => .ok { key := k, drop_fn := none, _box_provider := () }
  | .error e => .error e

/-- `Key::load`: fails with `InterfaceError` unless the length matches
`box_key_len()`; otherwise takes ownership of the bytes, no hook. -/
def Key.load (P : BoxProvider) (key : Bytes) : CResult Key :=
  if key.length ≠ P.box_key_len then .error Error.InterfaceError
  else .ok { key := key, drop_fn := none, _box_provider := () }

/-- `Key::on_drop`: sets `drop_fn`, replacing any previous hook. -/
def Key.on_drop (k : Key) (hook : Hook) : Key :=
  { k with drop_fn := some hook }

/-- `Key::bytes`: a shared (read-only) view of the raw bytes. -/
def Key.bytes (k : Key) : Bytes := k.key

/-- `Clone for Key`: copies the bytes and the hook reference.  The body
applies no hook; it only copies the `drop_fn` field. -/
def Key.clone (k : Key) : Key :=
  { key := k.key, drop_fn := k.drop_fn, _box_provider := () }

/-- `PartialEq for Key`: compares `key` and the phantom marker (the latter
comparison is between zero-sized values and always holds). -/
def Key.beq (a b : Key) : Bool :=
  (a.key == b.key) && (a._box_provider == b._box_provider)

/-- `Hash for Key`: feeds `key` and then the phantom marker to the hasher;
hashing `PhantomData` writes no data, so the digest is a function of the
bytes the `key` field contributes.  `H` is the hasher's digest function on
those bytes. -/
def Key.hashWith (H : Bytes → Nat) (k : Key) : Nat := H k.key

/-- `Drop for Key`: if a hook is attached it is applied to the
still-populated buffer.  Returns the buffer contents at deallocation and
the list of buffers the hook was invoked on (one entry per invocation the
drop body performs). -/
def Key.dropOp (k : Key) : Bytes × List Bytes :=
  match k.drop_fn with
  | some hook => (hook k.key, [k.key])
  | none => (k.key, [])

/-- The `Serialize` derive on `Key`: the `key` field is emitted; `drop_fn`
carries `serde(skip_serializing)` and `PhantomData` holds no data. -/
def Key.serialize (k : Key) : Bytes := k.key

/-- The `Deserialize` derive on `Key`: the `key` field is read back;
`drop_fn` carries `serde(skip_deserializing)` and so takes its default
value `None`. -/
def Key.deserialize (bytes : Bytes) : Key :=
  { key := bytes, drop_fn := none, _box_provider := () }

/-- `Encrypt::encrypt`, generic over the payload type (its `AsRef<[u8]>`
view `asRef`) and the ciphertext type (its `From<Vec<u8>>` conversion
`ctFrom`): seal the payload bytes, then wrap; a seal failure propagates
via `?`. -/
def encrypt {α τ : Type} (asRef : α → Bytes) (ctFrom : Bytes → τ)
    (P : BoxProvider) (self : α) (key : Key) (ad : Bytes) : CResult τ :=
  match P.box_seal key ad (asRef self) with
  | .ok sealed => .ok (ctFrom sealed)
  | .error e => .error e

/-- `Decrypt::decrypt`, generic over the ciphertext type (its view
`asRef`) and the payload type (its `TryFrom<Vec<u8>>` conversion
`tryFrom` with conversion-error type `ε`): open the ciphertext bytes
(failure propagates via `?`), then convert, mapping any conversion error
to `DatabaseError("Invalid Entry")`. -/
def decrypt {α ε τ : Type} (asRef : α → Bytes) (tryFrom : Bytes → Except ε τ)
    (P : BoxProvider) (self : α) (key : Key) (ad : Bytes) : CResult τ :=
  match P.box_open key ad (asRef self) with
  | .error e => .error e
  | .ok opened =>
    match tryFrom opened with
    | .ok t => .ok t
    | .error _ => .error (Error.DatabaseError ("Invalid Entry"))

/-- A minimal provider used to evaluate the definitions on concrete
inputs: seal and open are the identity on the data, random fills with the
buffer unchanged. -/
def P0 : BoxProvider where
  box_key_len := 4
  box_overhead := 0
  box_seal := fun _ _ d => .ok d
  box_open := fun _ _ c => .ok c
  random_buf := fun buf => .ok buf
  random_buf_len := by
    intro buf out h
    injection h with h
    rw [h]

/-- A provider every operation of which fails, used to evaluate the
error-propagation branches on concrete inputs. -/
def Pfail : BoxProvider where
  box_key_len := 4
  box_overhead := 0
  box_seal := fun _ _ _ => .error (Error.ProviderError ("seal failed"))
  box_open := fun _ _ _ => .error (Error.ProviderError ("open failed"))
  random_buf := fun _ => .error (Error.ProviderError ("no entropy"))
  random_buf_len := by
    intro buf out h
    exact absurd h (by simp)

/-- Claim C3: `load(bytes)` succeeds iff `len(bytes) == key_length()`; on
failure it returns the interface/validation error, and on success the
resulting Key holds exactly `bytes` with no cleanup hook attached. -/
theorem load_ok_iff (P : BoxProvider) (bytes : Bytes) :
    ((∃ k, Key.load P bytes = Except.ok k) ↔ bytes.length = P.box_key_len) ∧
    (bytes.length ≠ P.box_key_len →
      Key.load P bytes = Except.error Error.InterfaceError) ∧
    (bytes.length = P.box_key_len →
      Key.load P bytes = Except.ok { key := bytes, drop_fn := none, _box_provider := () } ∧
      ∀ k, Key.load P bytes = Except.ok k → Key.bytes k = bytes ∧ k.drop_fn = none) := by
  by_cases h : bytes.length = P.box_key_len
  · refine ⟨⟨fun _ => h, fun _ => ?_⟩, fun hc => absurd h hc, fun _ => ⟨?_, ?_⟩⟩
    · exact ⟨{ key := bytes, drop_fn := none, _box_provider := () }, by simp [Key.load, h]⟩
    · simp [Key.load, h]
    · intro k hk
      simp only [Key.load, h, ne_eq, not_true_eq_false, if_false] at hk
      injection hk with hk
      subst hk
      exact ⟨rfl, rfl⟩
  · refine ⟨⟨fun ⟨k, hk⟩ => ?_, fun hc => absurd hc h⟩, fun _ => by simp [Key.load, h],
      fun hc => absurd hc h⟩
    simp [Key.load, h] at hk

/-- Witness for C3 at `P0` (key length 4): a 3-byte load fails with the
interface error and a 4-byte load succeeds, returning exactly those bytes
with no hook. -/
theorem load_ok_iff_witness :
    Key.load P0 [1, 2, 3] = Except.error Error.InterfaceError ∧
    Key.load P0 [1, 2, 3, 4] =
      Except.ok { key := [1, 2, 3, 4], drop_fn := none, _box_provider := () } :=
  ⟨(load_ok_iff P0 [1, 2, 3]).2.1 (by decide),
   ((load_ok_iff P0 [1, 2, 3, 4]).2.2 (by decide)).1⟩

/-- Claim C4: every successfully constructed Key (via `random` or `load`)
has raw bytes of length `box_key_len`, and `bytes`, `on_drop`, `clone`
leave the raw buffer unchanged, as does destruction when no hook is
attached (equality and hashing are pure observations in this embedding
and cannot mutate).  `bytes` is the identity view of the raw buffer. -/
theorem key_raw_invariant (P : BoxProvider) (b : Bytes) (kr kl k : Key) (hook : Hook)
    (hr : Key.random P = Except.ok kr)
    (hl : Key.load P b = Except.ok kl) :
    kr.key.length = P.box_key_len ∧
    kl.key.length = P.box_key_len ∧
    Key.bytes k = k.key ∧
    (Key.on_drop k hook).key = k.key ∧
    (Key.clone k).key = k.key ∧
    (Key.dropOp { key := b, drop_fn := none, _box_provider := () }).1 = b := by
  refine ⟨?_, ?_, rfl, rfl, rfl, rfl⟩
  · unfold Key.random BoxProvider.random_vec at hr
    cases hbuf : P.random_buf (List.replicate P.box_key_len 0) with
    | ok buf =>
      rw [hbuf] at hr
      injection hr with hr
      subst hr
      have := P.random_buf_len _ _ hbuf
      simpa using this
    | error e =>
      rw [hbuf] at hr
      exact absurd hr (by simp)
  · unfold Key.load at hl
    by_cases h : b.length = P.box_key_len
    · simp only [h, ne_eq, not_true_eq_false, if_false] at hl
      injection hl with hl
      subst hl
      exact h
    · simp [h] at hl

/-- Witness for C4 at `P0`: a random key and a loaded key both have
4 raw bytes, and the view/hook/clone/drop operations leave the raw
buffer untouched. -/
theorem key_raw_invariant_witness :
    ({ key := [0, 0, 0, 0], drop_fn := none, _box_provider := () } : Key).key.length =
        P0.box_key_len ∧
    ({ key := [5, 6, 7, 8], drop_fn := none, _box_provider := () } : Key).key.length =
        P0.box_key_len ∧
    Key.bytes { key := [9], drop_fn := none, _box_provider := () } = [9] ∧
    (Key.on_drop { key := [9], drop_fn := none, _box_provider := () } id).key = [9] ∧
    (Key.clone { key := [9], drop_fn := none, _box_provider := () }).key = [9] ∧
    (Key.dropOp { key := [5, 6, 7, 8], drop_fn := none, _box_provider := () }).1 =
      [5, 6, 7, 8] :=
  key_raw_invariant P0 [5, 6, 7, 8]
    { key := [0, 0, 0, 0], drop_fn := none, _box_provider := () }
    { key := [5, 6, 7, 8], drop_fn := none, _box_provider := () }
    { key := [9], drop_fn := none, _box_provider := () } id rfl rfl

/-- Claim C5: `on_drop` replaces any previously attached hook, so at most
one is active; dropping a Key with a hook attached invokes it exactly
once on the still-populated raw buffer (the buffer released is the hook's
output), and dropping a Key with no hook performs no invocation and
leaves the buffer as is. -/
theorem drop_hook_lifecycle (k : Key) (h1 h2 hook : Hook) (b : Bytes) :
    ((k.on_drop h1).on_drop h2).drop_fn = some h2 ∧
    Key.dropOp { key := b, drop_fn := some hook, _box_provider := () } = (hook b, [b]) ∧
    Key.dropOp { key := b, drop_fn := none, _box_provider := () } = (b, []) :=
  ⟨rfl, rfl, rfl⟩

/-- Claim C6: `clone` copies the raw bytes and the hook reference without
invoking the hook; the clone equals the original and hashes identically,
and the clone's own destruction invokes the shared hook exactly as the
original's does. -/
theorem clone_preserves (k : Key) (H : Bytes → Nat) (b : Bytes) (hook : Hook) :
    (Key.clone k).key = k.key ∧
    (Key.clone k).drop_fn = k.drop_fn ∧
    Key.beq (Key.clone k) k = true ∧
    Key.hashWith H (Key.clone k) = Key.hashWith H k ∧
    Key.dropOp (Key.clone k) = Key.dropOp k ∧
    Key.dropOp (Key.clone { key := b, drop_fn := some hook, _box_provider := () }) =
      (hook b, [b]) := by
  refine ⟨rfl, rfl, ?_, rfl, ?_, rfl⟩
  · simp [Key.beq, Key.clone]
  · cases hd : k.drop_fn <;> simp [Key.dropOp, Key.clone, hd]

/-- Claim C7: equality and hashing of Keys are functions of the raw bytes
alone: two Keys are equal iff their raw buffers coincide, and equal raw
buffers hash identically, whatever hooks are attached and however the
Keys were constructed. -/
theorem eq_hash_of_raw (k1 k2 : Key) (H : Bytes → Nat) :
    (Key.beq k1 k2 = true ↔ k1.key = k2.key) ∧
    (k1.key = k2.key → Key.hashWith H k1 = Key.hashWith H k2) := by
  constructor
  · simp [Key.beq]
  · intro h
    simp [Key.hashWith, h]

/-- Witness for C7: two Keys with the same bytes but different hooks are
equal and hash identically. -/
theorem eq_hash_of_raw_witness :
    Key.beq { key := [1, 2], drop_fn := some id, _box_provider := () }
      { key := [1, 2], drop_fn := none, _box_provider := () } = true ∧
    Key.hashWith List.length { key := [1, 2], drop_fn := some id, _box_provider := () } =
      Key.hashWith List.length { key := [1, 2], drop_fn := none, _box_provider := () } :=
  ⟨(eq_hash_of_raw _ _ List.length).1.mpr rfl,
   (eq_hash_of_raw { key := [1, 2], drop_fn := some id, _box_provider := () }
     { key := [1, 2], drop_fn := none, _box_provider := () } List.length).2 rfl⟩

/-- Claim C10: the serialized form of a Key is its raw bytes only; the
round trip through serialize/deserialize restores the raw bytes and
yields a Key with no cleanup hook attached, whether or not the original
had one. -/
theorem serialize_excludes_hook (k : Key) :
    Key.serialize k = k.key ∧
    (Key.deserialize (Key.serialize k)).key = k.key ∧
    (Key.deserialize (Key.serialize k)).drop_fn = none :=
  ⟨rfl, rfl, rfl⟩

/-- Claim C8: `encrypt` is exactly the provider delegation: when
`box_seal` succeeds with bytes `c`, `encrypt` returns the ciphertext type
constructed from `c`; when `box_seal` fails, `encrypt` propagates that
error unchanged. -/
theorem encrypt_delegates {α τ : Type} (asRef : α → Bytes) (ctFrom : Bytes → τ)
    (P : BoxProvider) (self : α) (key : Key) (ad : Bytes) :
    (∀ c, P.box_seal key ad (asRef self) = Except.ok c →
      encrypt asRef ctFrom P self key ad = Except.ok (ctFrom c)) ∧
    (∀ e, P.box_seal key ad (asRef self) = Except.error e →
      encrypt asRef ctFrom P self key ad = Except.error e) := by
  constructor <;> intro x hx <;> simp [encrypt, hx]

/-- Witness for C8: under `P0` (identity seal) encrypting `[1, 2]` yields
the ciphertext `[1, 2]`; under `Pfail` the provider error propagates. -/
theorem encrypt_delegates_witness :
    encrypt id id P0 [1, 2] { key := [0], drop_fn := none, _box_provider := () } [7] =
      Except.ok [1, 2] ∧
    encrypt id id Pfail [1, 2] { key := [0], drop_fn := none, _box_provider := () } [7] =
      Except.error (Error.ProviderError ("seal failed")) :=
  ⟨(encrypt_delegates id id P0 [1, 2]
      { key := [0], drop_fn := none, _box_provider := () } [7]).1 [1, 2] rfl,
   (encrypt_delegates id id Pfail [1, 2]
      { key := [0], drop_fn := none, _box_provider := () } [7]).2
      (Error.ProviderError ("seal failed")) rfl⟩

/-- Claim C2: `decrypt` has two distinct failure modes: a failing
`box_open` propagates its error unchanged, while a successful `box_open`
whose plaintext the payload conversion rejects fails with the fixed
invalid-entry error — the same value whatever the conversion error was,
and different from every provider error. -/
theorem decrypt_error_modes {α ε τ : Type} (asRef : α → Bytes)
    (tryFrom : Bytes → Except ε τ)
    (P : BoxProvider) (self : α) (key : Key) (ad : Bytes) :
    (∀ e, P.box_open key ad (asRef self) = Except.error e →
      decrypt asRef tryFrom P self key ad = Except.error e) ∧
    (∀ opened ce, P.box_open key ad (asRef self) = Except.ok opened →
      tryFrom opened = Except.error ce →
      decrypt asRef tryFrom P self key ad =
        Except.error (Error.DatabaseError ("Invalid Entry")) ∧
      ∀ s, Error.DatabaseError ("Invalid Entry") ≠ Error.ProviderError s) := by
  constructor
  · intro e he
    simp [decrypt, he]
  · intro opened ce ho hc
    refine ⟨?_, fun s h => Error.noConfusion h⟩
    simp [decrypt, ho, hc]

/-- Witness for C2: under `Pfail` the open error propagates; under `P0`
with an always-failing conversion, decrypt fails with the invalid-entry
error, which differs from the provider error. -/
theorem decrypt_error_modes_witness :
    decrypt id (fun b => (Except.ok b : Except Nat Bytes)) Pfail [3, 4]
      { key := [0], drop_fn := none, _box_provider := () } [7] =
      Except.error (Error.ProviderError ("open failed")) ∧
    decrypt id (fun _ => (Except.error 0 : Except Nat Bytes)) P0 [3, 4]
      { key := [0], drop_fn := none, _box_provider := () } [7] =
      Except.error (Error.DatabaseError ("Invalid Entry")) :=
  ⟨(decrypt_error_modes id (fun b => (Except.ok b : Except Nat Bytes)) Pfail [3, 4]
      { key := [0], drop_fn := none, _box_provider := () } [7]).1
      (Error.ProviderError ("open failed")) rfl,
   ((decrypt_error_modes id (fun _ => (Except.error 0 : Except Nat Bytes)) P0 [3, 4]
      { key := [0], drop_fn := none, _box_provider := () } [7]).2 [3, 4] 0 rfl rfl).1⟩

/-- Claim C9: when the provider's random fill succeeds, `random()`
succeeds and yields a Key whose `bytes()` has length `box_key_len` with
no hook attached; when the random fill fails, `random()` fails with that
error. -/
theorem random_spec (P : BoxProvider) :
    (∀ out, P.random_buf (List.replicate P.box_key_len 0) = Except.ok out →
      Key.random P = Except.ok { key := out, drop_fn := none, _box_provider := () } ∧
      (Key.bytes { key := out, drop_fn := none, _box_provider := () }).length =
        P.box_key_len) ∧
    (∀ e, P.random_buf (List.replicate P.box_key_len 0) = Except.error e →
      Key.random P = Except.error e) := by
  constructor
  · intro out hout
    refine ⟨?_, ?_⟩
    · simp [Key.random, BoxProvider.random_vec, hout]
    · have := P.random_buf_len _ _ hout
      simpa [Key.bytes] using this
  · intro e he
    simp [Key.random, BoxProvider.random_vec, he]

/-- Witness for C9: under `P0` random generation succeeds with a 4-byte
hookless key; under `Pfail` the entropy error propagates. -/
theorem random_spec_witness :
    Key.random P0 =
      Except.ok { key := [0, 0, 0, 0], drop_fn := none, _box_provider := () } ∧
    Key.random Pfail = Except.error (Error.ProviderError ("no entropy")) :=
  ⟨((random_spec P0).1 [0, 0, 0, 0] rfl).1,
   (random_spec Pfail).2 (Error.ProviderError ("no entropy")) rfl⟩

/-- Claim C1: the round-trip law.  For a ciphertext type that views back
the bytes it was constructed from and a payload type whose fallible
conversion accepts its own byte view, any provider whose open inverts its
seal at the given key, associated data and payload makes
`decrypt (encrypt m) = m` at the byte level: encryption succeeds,
decryption of the result succeeds, and the recovered payload's bytes
equal the bytes of `m`. -/
theorem round_trip {α β ε τ : Type}
    (pAsRef : α → Bytes) (ctFrom : Bytes → β) (ctAsRef : β → Bytes)
    (tryFrom : Bytes → Except ε τ) (pBytes : τ → Bytes)
    (P : BoxProvider) (m : α) (k : Key) (ad c : Bytes)
    (hct : ∀ s, ctAsRef (ctFrom s) = s)
    (htf : ∀ b, ∃ p, tryFrom b = Except.ok p ∧ pBytes p = b)
    (hseal : P.box_seal k ad (pAsRef m) = Except.ok c)
    (hopen : P.box_open k ad c = Except.ok (pAsRef m)) :
    ∃ ct p, encrypt pAsRef ctFrom P m k ad = Except.ok ct ∧
      decrypt ctAsRef tryFrom P ct k ad = Except.ok p ∧
      pBytes p = pAsRef m := by
  obtain ⟨p, hp, hpb⟩ := htf (pAsRef m)
  refine ⟨ctFrom c, p, ?_, ?_, hpb⟩
  · simp [encrypt, hseal]
  · simp [decrypt, hct, hopen, hp]

/-- Witness for C1: with identity conversions and the identity provider
`P0`, encrypting then decrypting `[1, 2, 3]` recovers `[1, 2, 3]`. -/
theorem round_trip_witness :
    ∃ ct p, encrypt id id P0 [1, 2, 3]
        { key := [0, 0, 0, 0], drop_fn := none, _box_provider := () } [7] =
        Except.ok ct ∧
      decrypt id (fun b => (Except.ok b : Except Nat Bytes)) P0 ct
        { key := [0, 0, 0, 0], drop_fn := none, _box_provider := () } [7] =
        Except.ok p ∧
      id p = id ([1, 2, 3] : Bytes) :=
  round_trip id id id (fun b => (Except.ok b : Except Nat Bytes)) id P0 [1, 2, 3]
    { key := [0, 0, 0, 0], drop_fn := none, _box_provider := () } [7] [1, 2, 3]
    (fun _ => rfl) (fun b => ⟨b, rfl, rfl⟩) rfl rfl

end CryptoBox
